import Mathlib

/-!
Verification of the `zotero-add` repository: a shallow embedding of the
Markdown exporter (`export_annotations.py`), the API clients
(`zotero_annotate.py`, `zotero_backup.py`) and the backup driver
(`zotero_backup.py`), together with proofs settling the frozen claims
about pagination, slugging, attachment download fallback, export
skipping, configuration checking, error taxonomy, filenames, rate-limit
sleeps, git committing and write ordering.
-/

/-! ## String helpers mirroring the Python string operations used. -/

/-- `c` is kept by the slug regex `[^a-z0-9]+` after lowercasing:
lowercase ASCII letter or ASCII digit. -/
def isSlugChar (c : Char) : Bool :=
  ('a' ≤ c && c ≤ 'z') || ('0' ≤ c && c ≤ '9')

/-- Replace each maximal run of non-slug characters by a single `'-'`,
as `re.sub(r'[^a-z0-9]+', '-', s)` does.  The flag records whether we
are currently inside such a run (its first character already emitted a
hyphen). -/
def collapseNonSlug : Bool → List Char → List Char
  | _, [] => []
  | inRun, c :: cs =>
    if isSlugChar c then c :: collapseNonSlug false cs
    else if inRun then collapseNonSlug true cs
    else '-' :: collapseNonSlug true cs

/-- Python `str.strip(ch)`: drop the character from both ends. -/
def stripChar (ch : Char) (l : List Char) : List Char :=
  ((l.dropWhile (fun c => c == ch)).reverse.dropWhile (fun c => c == ch)).reverse

/-- Python `str.strip()`: drop whitespace from both ends. -/
def stripWS (s : String) : String :=
  String.mk (((s.data.dropWhile Char.isWhitespace).reverse.dropWhile Char.isWhitespace).reverse)

/-- Python `str.lower()` (ASCII suffices for the inputs considered). -/
def strLower (s : String) : String :=
  String.mk (s.data.map Char.toLower)

/-- `export_annotations.slugify`: lowercase, collapse each run of
characters outside `[a-z0-9]` to a hyphen, strip leading/trailing
hyphens. -/
def slugify (value : String) : String :=
  String.mk (stripChar '-' (collapseNonSlug false (value.data.map Char.toLower)))

/-! ## Creators and author tags (`write_markdown_for_item`, lines 25–32). -/

/-- One entry of an item's `creators` list; absent fields are the empty
string, matching `c.get(..., "")`. -/
structure Creator where
  creatorType : String
  firstName : String
  lastName : String
  deriving DecidableEq, Repr

/-- The author-tag loop of `write_markdown_for_item`: creators whose
role is author or editor and whose stripped last name is non-empty
contribute `#slugify(first-last)`. -/
def authorTags (creators : List Creator) : List String :=
  creators.filterMap fun c =>
    if c.creatorType = "author" ∨ c.creatorType = "editor" then
      let first := strLower (stripWS c.firstName)
      let last := strLower (stripWS c.lastName)
      if last ≠ "" then some ("#" ++ slugify (first ++ "-" ++ last)) else none
    else none


/-! ## Markdown filenames (`write_markdown_for_item`, lines 34–37). -/

/-- `c` matches the filename-sanitising regex `[\\/*?:"<>|]`. -/
def illegalFsChar (c : Char) : Bool :=
  ['\\', '/', '*', '?', ':', '"', '<', '>', '|'].contains c

/-- Replace each illegal filesystem character by `'_'`
(`re.sub(r'[\\/*?:"<>|]', "_", title)`). -/
def sanChar (c : Char) : Char :=
  if illegalFsChar c then '_' else c

/-- The filename computed by `write_markdown_for_item`:
`f"{safe_title or 'untitled'}_{item['key']}.md"` with
`safe_title = re.sub(...)[:100]`. -/
def markdownFilename (title key : String) : String :=
  let safeL := (title.data.map sanChar).take 100
  String.mk ((if safeL = [] then "untitled".data else safeL)
    ++ "_".data ++ key.data ++ ".md".data)

/-- The filename function as the claim describes it: sanitised title
truncated to 100 characters, then key, then `.md` — with no fallback
for an empty title. -/
def claimFilename (title key : String) : String :=
  String.mk ((title.data.map sanChar).take 100 ++ "_".data ++ key.data ++ ".md".data)


/-! ## Pagination (`ZoteroBackup.list_all_items`, lines 101–117).

The remote is modelled as the sequence of batches it serves to the
successive page requests (the stub of the testable property).  The
loop requests a page, stops on an empty batch, otherwise accumulates
it, advances the offset by the batch length, sleeps, and stops if the
batch was shorter than `per_page`. -/

/-- The batches the loop actually consumes: a prefix of the served
batches ending at (and excluding) the first empty batch, or at (and
including) the first batch shorter than `pp`. -/
def pagesConsumed (pp : Nat) : List (List α) → List (List α)
  | [] => []
  | b :: rest =>
    if b.isEmpty then []
    else if b.length < pp then [b]
    else b :: pagesConsumed pp rest

/-- `list_all_items` run against served batches, starting at offset
`s`: returns the list of offsets requested and the accumulated items.
An exhausted server serves an empty batch. -/
def list_all_items (pp s : Nat) : List (List α) → List Nat × List α
  | [] => ([s], [])
  | b :: rest =>
    if b.isEmpty then ([s], [])
    else if b.length < pp then ([s], b)
    else
      let r := list_all_items pp (s + b.length) rest
      (s :: r.1, b ++ r.2)

/-! ## Events of a backup run, for the temporal claims. -/

/-- Observable actions of a backup run. -/
inductive Ev where
  | req (off : Nat)
  | childReq (key : String)
  | sleep
  | writeMeta
  | writeItemJson (key : String)
  | writeAttMeta (key : String)
  | downloadAttempt (key : String)
  | writeAnnotations (key : String)
  | gitOps
  | printMsg
  | exitWith (code : Nat)
  deriving DecidableEq, Repr

/-- The event trace of `list_all_items`: a page request, then — unless
the batch was empty, which breaks out before the sleep — a sleep; the
loop continues only after a full batch. -/
def list_all_items_trace (pp s : Nat) : List (List α) → List Ev
  | [] => [.req s]
  | b :: rest =>
    if b.isEmpty then [.req s]
    else if b.length < pp then [.req s, .sleep]
    else .req s :: .sleep :: list_all_items_trace pp (s + b.length) rest

/-! ## The backup driver (`ZoteroBackup.backup`, lines 189–256). -/

/-- A child item as returned by `/items/<key>/children`. -/
structure ChildItem where
  key : String
  itemType : String
  deriving DecidableEq, Repr

/-- A top-level item together with the children the server returns
for it. -/
structure TopItem where
  key : String
  children : List ChildItem
  deriving DecidableEq, Repr

/-- Configuration of a `ZoteroBackup` run. -/
structure BackupCfg where
  includeAttachments : Bool
  commitRepo : Bool
  perPage : Nat

/-- The remote library as the backup run observes it: the served
top-item batches, whether the first download attempt for an attachment
key succeeds, and the children (annotations) served for an attachment
key. -/
structure BkWorld where
  batches : List (List TopItem)
  downloadOk : String → Bool
  annChildren : String → List ChildItem

/-- Processing of one child in the item loop (lines 209–252): children
that are not attachments are ignored; an attachment first has its
metadata JSON written, then (if enabled) one download attempt — and a
second one with the key as filename if the first fails — then its own
children are fetched (followed by the fixed sleep) and written out if
non-empty. -/
def processChild (cfg : BackupCfg) (w : BkWorld) (c : ChildItem) : List Ev :=
  if strLower c.itemType = "attachment" then
    Ev.writeAttMeta c.key ::
      ((if cfg.includeAttachments then
          if w.downloadOk c.key then [Ev.downloadAttempt c.key]
          else [Ev.downloadAttempt c.key, Ev.downloadAttempt c.key]
        else [])
        ++ [Ev.childReq c.key, Ev.sleep]
        ++ (if (w.annChildren c.key).isEmpty then [] else [Ev.writeAnnotations c.key]))
  else []

/-- Processing of one top-level item (lines 195–253): write the item's
JSON, fetch its children, sleep, then process each child in order. -/
def processItem (cfg : BackupCfg) (w : BkWorld) (it : TopItem) : List Ev :=
  Ev.writeItemJson it.key :: Ev.childReq it.key :: Ev.sleep ::
    (it.children.map (processChild cfg w)).flatten

/-- The full trace of `ZoteroBackup.backup`: paginate all top items,
write the manifest, process each item, then optionally run the git
steps. -/
def backupRunTrace (cfg : BackupCfg) (w : BkWorld) : List Ev :=
  list_all_items_trace cfg.perPage 0 w.batches
    ++ Ev.writeMeta ::
      ((list_all_items cfg.perPage 0 w.batches).2.map (processItem cfg w)).flatten
    ++ (if cfg.commitRepo then [Ev.gitOps] else [])

/-! ## The backup entry point (`backup()`, lines 296–330). -/

/-- Python truthiness test for an optional environment value: `None`
and the empty string are falsy. -/
def pyFalsy : Option String → Bool
  | none => true
  | some s => s == ""

/-- The command entry point: if `ZOTERO_API_KEY` or `ZOTERO_LIBRARY_ID`
is missing (falsy), print a message and exit with status 2 before the
client is even constructed; otherwise run the backup. -/
def backupEntryTrace (env : String → Option String) (cfg : BackupCfg) (w : BkWorld) :
    List Ev :=
  if pyFalsy (env "ZOTERO_API_KEY") || pyFalsy (env "ZOTERO_LIBRARY_ID") then
    [Ev.printMsg, Ev.exitWith 2]
  else
    backupRunTrace cfg w

/-- Events that issue a network request. -/
def isNetworkReq : Ev → Bool
  | .req _ => true
  | .childReq _ => true
  | .downloadAttempt _ => true
  | _ => false


/-! ## Error taxonomy of the two API clients.

`ZoteroBackup._get` (lines 87–99) raises a distinct `RuntimeError` on
HTTP 429 and lets `raise_for_status` raise `requests.HTTPError` on any
other 4xx/5xx status; `ZoteroClient.query_items`
(`zotero_annotate.py`, lines 38–46) only calls `raise_for_status`, so
every 4xx/5xx status — 429 included — raises the same
`requests.HTTPError`.  Neither performs a retry: each call issues
exactly one request. -/

/-- Exception kinds a `ZoteroBackup._get` call can raise. -/
inductive BackupErr where
  | rateLimited
  | httpError
  deriving DecidableEq, Repr

/-- `ZoteroBackup._get`, as a function of the response status: 429
raises the rate-limit kind, any other 4xx/5xx raises the generic HTTP
kind, otherwise the response is returned. -/
def zotero_get (status : Nat) : Except BackupErr Nat :=
  if status = 429 then .error .rateLimited
  else if 400 ≤ status then .error .httpError
  else .ok status

/-- Exception kinds a `ZoteroClient` request can raise:
`raise_for_status` raises one kind for every failing status. -/
inductive ClientErr where
  | httpError
  deriving DecidableEq, Repr

/-- `ZoteroClient.query_items`, as a function of the response status
and body: `raise_for_status` then the decoded body. -/
def query_items (status : Nat) (body : List α) : Except ClientErr (List α) :=
  if 400 ≤ status then .error .httpError else .ok body

/-! ## Attachment download (`ZoteroBackup.get_attachment_file`, lines 127–184). -/

/-- A value of the `links` mapping: a dict with an optional `href`
field, or something that is not a dict. -/
inductive LinkVal where
  | dict (href : Option String)
  | other
  deriving DecidableEq, Repr

/-- An attachment object as `get_attachment_file` reads it: its `key`
(if present) and its `links` mapping, in insertion order. -/
structure AttachmentRec where
  key : Option String
  links : List (String × LinkVal)
  deriving DecidableEq, Repr

/-- How the network behaves for a download: status of the generic
`/items/<key>/file` endpoint, and status of a direct GET on an href. -/
structure FileWorld where
  fileEndpointStatus : String → Nat
  hrefStatus : String → Nat

/-- What a call to `get_attachment_file` did: returned a boolean or
raised, and whether it created the destination file. -/
inductive FileResult where
  | returns (success : Bool)
  | raises (e : BackupErr)
  deriving DecidableEq, Repr

/-- Python `dict.get(name)` on the links mapping. -/
def lookupLink (links : List (String × LinkVal)) (name : String) : Option LinkVal :=
  (links.find? fun p => p.1 == name).map Prod.snd

/-- The truthiness test `isinstance(link_obj, dict) and
link_obj.get("href")`: a dict value with a non-empty href. -/
def truthyHref : Option LinkVal → Option String
  | some (.dict (some h)) => if h = "" then none else some h
  | _ => none

/-- The candidate loop (lines 137–141): first of
`enclosure`, `file`, `link`, `attachment` carrying a truthy href. -/
def findNamedHref (links : List (String × LinkVal)) : Option String :=
  (["enclosure", "file", "link", "attachment"].filterMap fun n =>
    truthyHref (lookupLink links n)).head?

/-- The last-resort check of the first entry of the mapping
(lines 145–148). -/
def firstEntryHref (links : List (String × LinkVal)) : Option String :=
  match links.head? with
  | some p => truthyHref (some p.2)
  | none => none

/-- The href `get_attachment_file` resolves: named candidates first,
then the first entry of the mapping. -/
def resolveHref (links : List (String × LinkVal)) : Option String :=
  match findNamedHref links with
  | some h => some h
  | none => firstEntryHref links

/-- `get_attachment_file`: with a resolved href, download it directly
(any exception is caught and turned into `False`); with none, fall back
to the generic `/items/<key>/file` endpoint, where a 429 raises a
`RuntimeError` that the `except requests.HTTPError` clause does not
catch, any other 4xx/5xx is caught and yields `False`, a 200 writes the
file, and any other success status yields `False` without writing. -/
def get_attachment_file (w : FileWorld) (att : AttachmentRec) :
    FileResult × Bool :=
  match resolveHref att.links with
  | some href =>
    if 400 ≤ w.hrefStatus href then (.returns false, false)
    else (.returns true, true)
  | none =>
    match att.key with
    | none => (.returns false, false)
    | some k =>
      let s := w.fileEndpointStatus k
      if s = 429 then (.raises .rateLimited, false)
      else if 400 ≤ s then (.returns false, false)
      else if s = 200 then (.returns true, true)
      else (.returns false, false)

/-! ## The Markdown exporter's item loop (`export`, lines 96–110). -/

/-- A child of an attachment as the exporter sees it. -/
structure AnnItem where
  itemType : String
  deriving DecidableEq, Repr

/-- A child of a top-level item, with its own children as the server
returns them for its key. -/
structure AttItem where
  key : String
  itemType : String
  children : List AnnItem
  deriving DecidableEq, Repr

/-- A top-level item as the exporter sees it. -/
structure ExpItem where
  key : String
  title : String
  children : List AttItem
  deriving DecidableEq, Repr

/-- `ZoteroClient.query_attachments`: the children whose `itemType` is
`attachment`. -/
def query_attachments (i : ExpItem) : List AttItem :=
  i.children.filter fun a => a.itemType == "attachment"

/-- `ZoteroClient.query_annotations`: the children whose `itemType` is
`annotation`. -/
def query_annotations (a : AttItem) : List AnnItem :=
  a.children.filter fun n => n.itemType == "annotation"

/-- The grouping built by `export` (lines 98–105): attachment key to
its annotations, only for attachments with at least one annotation. -/
def annotationsByAttachment (i : ExpItem) : List (String × List AnnItem) :=
  (query_attachments i).filterMap fun a =>
    let anns := query_annotations a
    if anns.isEmpty then none else some (a.key, anns)

/-- What the exporter does with one item. -/
inductive ExportAct where
  | writeFile (name : String)
  | skipNotice (title : String)
  deriving DecidableEq, Repr

/-- The per-item branch of `export` (lines 107–110): write a Markdown
file when some attachment is annotated, otherwise print a skip
notice. -/
def exportItemAct (i : ExpItem) : ExportAct :=
  if (annotationsByAttachment i).isEmpty then .skipNotice i.title
  else .writeFile (markdownFilename i.title i.key)

/-! ## Git steps (`_maybe_init_and_commit`, lines 271–293, and
`_is_git_repo`, lines 264–269). -/

/-- The state the git helper observes: is the output directory already
a repository, does `.gitignore` exist, and do the `git init`, `git
add`, `git commit` subprocesses succeed. -/
structure GitWorld where
  isRepo : Bool
  gitignoreExists : Bool
  initOk : Bool
  addOk : Bool
  commitOk : Bool
  deriving DecidableEq, Repr

/-- Actions of `_maybe_init_and_commit`. -/
inductive GitEv where
  | initRepo
  | writeIgnore
  | addAll
  | commitMsg
  | committed
  | reportInitFail
  | reportCommitFail
  deriving DecidableEq, Repr

/-- The `.gitignore` and add/commit part (lines 282–293): write the
ignore file only when absent; `git add .`, then `git commit` with the
timestamped message; a `CalledProcessError` from either is caught and
reported. -/
def ignoreAddCommit (w : GitWorld) : List GitEv :=
  (if w.gitignoreExists then [] else [GitEv.writeIgnore])
    ++ (if w.addOk then
          GitEv.addAll ::
            (if w.commitOk then [GitEv.commitMsg, GitEv.committed]
             else [GitEv.commitMsg, GitEv.reportCommitFail])
        else [GitEv.addAll, GitEv.reportCommitFail])

/-- `_maybe_init_and_commit`: initialise a repository only when the
directory is not one already; a failing `git init` is reported and the
function returns early; otherwise continue with the ignore file and the
commit.  The function catches every subprocess failure, so it never
raises. -/
def maybe_init_and_commit (w : GitWorld) : List GitEv :=
  if w.isRepo then ignoreAddCommit w
  else if w.initOk then GitEv.initRepo :: ignoreAddCommit w
  else [GitEv.initRepo, GitEv.reportInitFail]

/-! ## Trace predicates for the rate-limit claims. -/

/-- Recogniser for the sleep event. -/
def isSleep : Ev → Bool
  | .sleep => true
  | _ => false

/-- Every children request in the trace is immediately followed by a
sleep. -/
def sleepAfterChildReqs : List Ev → Bool
  | [] => true
  | .childReq _ :: .sleep :: rest => sleepAfterChildReqs (Ev.sleep :: rest)
  | .childReq _ :: _ => false
  | _ :: rest => sleepAfterChildReqs rest

/-- Every items-page request in the trace is immediately followed by a
sleep (the reading of the claim under test). -/
def reqsFollowedBySleep : List Ev → Bool
  | [] => true
  | .req _ :: .sleep :: rest => reqsFollowedBySleep (Ev.sleep :: rest)
  | .req _ :: _ => false
  | _ :: rest => reqsFollowedBySleep rest

/-! ## General lemmas. -/

/-- The items accumulated by `list_all_items` are exactly the
concatenation of the consumed batches, at any starting offset. -/
lemma list_all_items_snd_eq (pp s : Nat) (batches : List (List α)) :
    (list_all_items pp s batches).2 = (pagesConsumed pp batches).flatten := by
  induction batches generalizing s with
  | nil => rfl
  | cons b rest ih =>
    by_cases h1 : b.isEmpty <;> by_cases h2 : b.length < pp <;>
      simp [list_all_items, pagesConsumed, h1, h2, ih]

lemma sleepAfterChildReqs_append {x y : List Ev}
    (hx : sleepAfterChildReqs x = true) (hy : sleepAfterChildReqs y = true) :
    sleepAfterChildReqs (x ++ y) = true := by
  induction x with
  | nil => simpa using hy
  | cons a rest ih =>
    cases a with
    | childReq k =>
      cases rest with
      | nil => simp [sleepAfterChildReqs] at hx
      | cons b rest2 =>
        cases b with
        | sleep =>
          have hx' : sleepAfterChildReqs (Ev.sleep :: rest2) = true := by
            simpa [sleepAfterChildReqs] using hx
          simpa [sleepAfterChildReqs] using ih hx'
        | req o => simp [sleepAfterChildReqs] at hx
        | childReq k2 => simp [sleepAfterChildReqs] at hx
        | writeMeta => simp [sleepAfterChildReqs] at hx
        | writeItemJson k2 => simp [sleepAfterChildReqs] at hx
        | writeAttMeta k2 => simp [sleepAfterChildReqs] at hx
        | downloadAttempt k2 => simp [sleepAfterChildReqs] at hx
        | writeAnnotations k2 => simp [sleepAfterChildReqs] at hx
        | gitOps => simp [sleepAfterChildReqs] at hx
        | printMsg => simp [sleepAfterChildReqs] at hx
        | exitWith c2 => simp [sleepAfterChildReqs] at hx
    | req o => exact ih (by simpa [sleepAfterChildReqs] using hx)
    | sleep => exact ih (by simpa [sleepAfterChildReqs] using hx)
    | writeMeta => exact ih (by simpa [sleepAfterChildReqs] using hx)
    | writeItemJson k => exact ih (by simpa [sleepAfterChildReqs] using hx)
    | writeAttMeta k => exact ih (by simpa [sleepAfterChildReqs] using hx)
    | downloadAttempt k => exact ih (by simpa [sleepAfterChildReqs] using hx)
    | writeAnnotations k => exact ih (by simpa [sleepAfterChildReqs] using hx)
    | gitOps => exact ih (by simpa [sleepAfterChildReqs] using hx)
    | printMsg => exact ih (by simpa [sleepAfterChildReqs] using hx)
    | exitWith c => exact ih (by simpa [sleepAfterChildReqs] using hx)

lemma sleepAfterChildReqs_flatten {ls : List (List Ev)}
    (h : ∀ l ∈ ls, sleepAfterChildReqs l = true) :
    sleepAfterChildReqs ls.flatten = true := by
  induction ls with
  | nil => rfl
  | cons a t ih =>
    rw [List.flatten_cons]
    exact sleepAfterChildReqs_append (h a (by simp))
      (ih fun l hl => h l (by simp [hl]))

lemma processChild_sleepOk (cfg : BackupCfg) (w : BkWorld) (c : ChildItem) :
    sleepAfterChildReqs (processChild cfg w c) = true := by
  unfold processChild
  split_ifs <;> simp [sleepAfterChildReqs]

lemma processItem_sleepOk (cfg : BackupCfg) (w : BkWorld) (it : TopItem) :
    sleepAfterChildReqs (processItem cfg w it) = true := by
  have h : sleepAfterChildReqs ((it.children.map (processChild cfg w)).flatten) = true := by
    apply sleepAfterChildReqs_flatten
    intro l hl
    obtain ⟨c, _, rfl⟩ := List.mem_map.mp hl
    exact processChild_sleepOk cfg w c
  simp [processItem, sleepAfterChildReqs, h]

lemma list_all_items_trace_sleepOk (pp s : Nat) (batches : List (List α)) :
    sleepAfterChildReqs (list_all_items_trace pp s batches) = true := by
  induction batches generalizing s with
  | nil => rfl
  | cons b rest ih =>
    by_cases h1 : b.isEmpty <;> by_cases h2 : b.length < pp <;>
      simp [list_all_items_trace, h1, h2, sleepAfterChildReqs, ih]

/-! ## Claim theorems. -/

/-- Claim C1: `list_all_items` requests successive pages starting at
offset 0 with the offset advanced by the returned batch size, stops as
soon as a batch is empty or smaller than `per_page`, and returns the
concatenation of the consumed batches; in particular for served
batches of sizes `[100, 100, 37]` with `per_page = 100` it makes
exactly the three page requests at offsets 0, 100, 200 and returns
exactly 237 items, the concatenation of the three batches in
order. -/
theorem C1_pagination :
    (∀ (pp : Nat) (batches : List (List Nat)),
        (list_all_items pp 0 batches).2 = (pagesConsumed pp batches).flatten)
    ∧ (∀ (pp s : Nat) (b : List Nat) (rest : List (List Nat)),
        list_all_items pp s (b :: rest) =
          if b.isEmpty then ([s], [])
          else if b.length < pp then ([s], b)
          else (s :: (list_all_items pp (s + b.length) rest).1,
            b ++ (list_all_items pp (s + b.length) rest).2))
    ∧ (list_all_items 100 0 [List.replicate 100 (0 : Nat), List.replicate 100 0,
        List.replicate 37 0]).1 = [0, 100, 200]
    ∧ (list_all_items 100 0 [List.replicate 100 (0 : Nat), List.replicate 100 0,
        List.replicate 37 0]).2.length = 237
    ∧ (list_all_items 100 0 [List.replicate 100 (0 : Nat), List.replicate 100 0,
        List.replicate 37 0]).2
      = List.replicate 100 0 ++ List.replicate 100 0 ++ List.replicate 37 0 := by
  refine ⟨fun pp batches => list_all_items_snd_eq pp 0 batches,
    fun pp s b rest => rfl,
    by set_option maxRecDepth 8000 in decide,
    by set_option maxRecDepth 8000 in decide,
    by set_option maxRecDepth 8000 in decide⟩

/-- Claim C2, counterexample: a creator named "Jane Q. Doe" with role
author yields the tag `#jane-q-doe` — the middle initial survives as
its own hyphen-separated component — not `#jane-doe` as claimed. -/
theorem C2_counterexample :
    authorTags [⟨"author", "Jane Q.", "Doe"⟩] ≠ ["#jane-doe"] ∧
    authorTags [⟨"author", "Jane Q.", "Doe"⟩] = ["#jane-q-doe"] := by
  decide

/-- Claim C2, amended: a creator with `creatorType` author (or editor)
named "Jane Q. Doe" contributes exactly the tag `#jane-q-doe` (runs of
non-alphanumeric characters become single hyphens, case-folded), and a
creator whose `creatorType` is "contributor" contributes no tag. -/
theorem C2_author_tag_slug :
    authorTags [⟨"author", "Jane Q.", "Doe"⟩] = ["#jane-q-doe"]
    ∧ authorTags [⟨"editor", "Jane Q.", "Doe"⟩] = ["#jane-q-doe"]
    ∧ ∀ firstN lastN : String, authorTags [⟨"contributor", firstN, lastN⟩] = [] := by
  refine ⟨by decide, by decide, fun firstN lastN => ?_⟩
  have h : ¬("contributor" = "author" ∨ "contributor" = "editor") := by decide
  simp [authorTags, h]

/-- Claim C7, counterexample: for the empty title the code substitutes
the prefix `untitled`, so the filename is not the sanitised-truncated
title concatenated with the key. -/
theorem C7_counterexample :
    markdownFilename "" "K7X" ≠ claimFilename "" "K7X" ∧
    markdownFilename "" "K7X" = "untitled_K7X.md" := by
  decide

/-- Claim C7, amended: the Markdown filename is a deterministic pure
function of (title, key): for a non-empty title it is exactly the
title with each of `\ / * ? : " < > |` replaced by `_`, truncated to
100 characters, then `_`, the key, and `.md`; for an empty title the
prefix `untitled` is used instead. -/
theorem C7_filename :
    ∀ title key : String,
      (title ≠ "" → markdownFilename title key = claimFilename title key)
      ∧ markdownFilename "" key
          = String.mk ("untitled".data ++ "_".data ++ key.data ++ ".md".data) := by
  intro title key
  constructor
  · intro h
    have hdata : title.data ≠ [] := by
      intro hd
      apply h
      cases title with
      | mk l => subst hd; rfl
    have hsafe : (title.data.map sanChar).take 100 ≠ [] := by
      intro hnil
      have hlen := congrArg List.length hnil
      simp only [List.length_take, List.length_map, List.length_nil] at hlen
      exact hdata (List.eq_nil_of_length_eq_zero (by omega))
    simp only [markdownFilename, claimFilename]
    rw [if_neg hsafe]
  · rfl

/-- Witness for Claim C7 at a concrete non-empty title. -/
theorem C7_filename_witness :
    markdownFilename "A:B" "KEY" = claimFilename "A:B" "KEY" :=
  (C7_filename "A:B" "KEY").1 (by decide)

/-- Claim C8, counterexample: with `per_page = 1` and a single served
batch `[[0]]`, the final probe request returns the empty batch and the
loop breaks before its `time.sleep`, so that page request is not
followed by a sleep — the sleep is not performed after every items-page
request regardless of response size. -/
theorem C8_counterexample :
    reqsFollowedBySleep (list_all_items_trace 1 0 ([[0]] : List (List Nat))) = false
    ∧ list_all_items_trace 1 0 ([[0]] : List (List Nat))
        = [Ev.req 0, Ev.sleep, Ev.req 1] := by
  decide

/-- Claim C8, amended: during a backup run a fixed sleep is performed
after every paginated items-page request that returns a non-empty
batch (one sleep per consumed batch; an empty batch breaks out of the
loop before the sleep), and after every children request regardless of
the size of the response returned. -/
theorem C8_sleep_discipline :
    (∀ (pp s : Nat) (batches : List (List Nat)),
        (list_all_items_trace pp s batches).countP isSleep
          = (pagesConsumed pp batches).length)
    ∧ (∀ (pp s : Nat) (b : List Nat) (rest : List (List Nat)),
        list_all_items_trace pp s (b :: rest) =
          if b.isEmpty then [Ev.req s]
          else if b.length < pp then [Ev.req s, Ev.sleep]
          else Ev.req s :: Ev.sleep :: list_all_items_trace pp (s + b.length) rest)
    ∧ (∀ (cfg : BackupCfg) (w : BkWorld),
        sleepAfterChildReqs (backupRunTrace cfg w) = true) := by
  refine ⟨?_, fun pp s b rest => rfl, ?_⟩
  · intro pp s batches
    induction batches generalizing s with
    | nil => rfl
    | cons b rest ih =>
      by_cases h1 : b.isEmpty <;> by_cases h2 : b.length < pp <;>
        simp [list_all_items_trace, pagesConsumed, h1, h2, List.countP_cons, isSleep, ih]
  · intro cfg w
    unfold backupRunTrace
    have hfl : sleepAfterChildReqs
        (((list_all_items cfg.perPage 0 w.batches).2.map (processItem cfg w)).flatten)
          = true := by
      apply sleepAfterChildReqs_flatten
      intro l hl
      obtain ⟨it, _, rfl⟩ := List.mem_map.mp hl
      exact processItem_sleepOk cfg w it
    have hmid : sleepAfterChildReqs
        (Ev.writeMeta ::
          ((list_all_items cfg.perPage 0 w.batches).2.map (processItem cfg w)).flatten)
          = true := by
      simpa [sleepAfterChildReqs] using hfl
    have htail : sleepAfterChildReqs
        ((if cfg.commitRepo then [Ev.gitOps] else []) : List Ev) = true := by
      by_cases hc : cfg.commitRepo <;> simp [hc, sleepAfterChildReqs]
    exact sleepAfterChildReqs_append
      (sleepAfterChildReqs_append
        (list_all_items_trace_sleepOk cfg.perPage 0 w.batches) hmid) htail

/-- Claim C10: for every child of type "attachment" processed by the
backup run, the attachment metadata JSON is the first action taken for
that child — in particular it precedes every download attempt — and it
is written even when attachment downloading is disabled, in which case
no download is attempted; nothing in the run removes it. -/
theorem C10_meta_before_download :
    ∀ (cfg : BackupCfg) (w : BkWorld) (c : ChildItem),
      strLower c.itemType = "attachment" →
      (processChild cfg w c).head? = some (Ev.writeAttMeta c.key)
      ∧ (∀ j k, (processChild cfg w c).get? j = some (Ev.downloadAttempt k) →
          ∃ i, i < j ∧ (processChild cfg w c).get? i = some (Ev.writeAttMeta c.key))
      ∧ (cfg.includeAttachments = false →
          ∀ k, Ev.downloadAttempt k ∉ processChild cfg w c)
      ∧ Ev.writeAttMeta c.key ∈ processChild cfg w c := by
  intro cfg w c h
  refine ⟨by simp [processChild, h], ?_, ?_, by simp [processChild, h]⟩
  · intro j k hj
    refine ⟨0, ?_, by simp [processChild, h]⟩
    cases j with
    | zero => simp [processChild, h] at hj
    | succ j' => omega
  · intro hinc k
    by_cases ha : (w.annChildren c.key).isEmpty <;> simp [processChild, h, hinc, ha]

/-- Witness for Claim C10: at a concrete attachment child, the first
action is writing its metadata JSON. -/
theorem C10_meta_before_download_witness :
    (processChild ⟨true, true, 100⟩ ⟨[], fun _ => false, fun _ => []⟩
      ⟨"A1", "attachment"⟩).head? = some (Ev.writeAttMeta "A1") :=
  (C10_meta_before_download ⟨true, true, 100⟩ ⟨[], fun _ => false, fun _ => []⟩
    ⟨"A1", "attachment"⟩ (by decide)).1

/-- Claim C3, counterexample: an attachment whose links mapping has no
entry named enclosure/file/link/attachment with an href, but whose
first entry is a dict with an href, is downloaded from that first
entry (lines 145–148) — the generic file endpoint (here answering 404,
a non-200 status) is never consulted and the call returns success and
writes the file, contradicting the claimed failure. -/
theorem C3_counterexample :
    findNamedHref [("self", LinkVal.dict (some "u"))] = none
    ∧ (404 : Nat) ≠ 200
    ∧ get_attachment_file ⟨fun _ => 404, fun _ => 200⟩
        ⟨some "K", [("self", LinkVal.dict (some "u"))]⟩
      = (FileResult.returns true, true) := by
  exact ⟨by decide, by decide, rfl⟩

/-- Claim C3, amended: if no entry of the links mapping resolves to an
href — neither the named candidates enclosure/file/link/attachment nor
the first-entry fallback — and the generic per-attachment file
endpoint responds with a non-200 status other than 429, then
`get_attachment_file` returns `False` without raising and without
creating a file at the destination path.  (A 429 from the endpoint
raises the rate-limit `RuntimeError`, which the `except
requests.HTTPError` clause does not catch.) -/
theorem C3_download_fallback :
    ∀ (w : FileWorld) (att : AttachmentRec) (k : String),
      att.key = some k →
      resolveHref att.links = none →
      w.fileEndpointStatus k ≠ 200 →
      w.fileEndpointStatus k ≠ 429 →
      get_attachment_file w att = (FileResult.returns false, false) := by
  intro w att k hk hres hs h429
  unfold get_attachment_file
  rw [hres, hk]
  by_cases h4 : 400 ≤ w.fileEndpointStatus k <;> simp [h429, h4, hs]

/-- Witness for Claim C3 at a concrete attachment with an empty links
mapping and a 404 from the file endpoint. -/
theorem C3_download_fallback_witness :
    get_attachment_file ⟨fun _ => 404, fun _ => 0⟩ ⟨some "K", []⟩
      = (FileResult.returns false, false) :=
  C3_download_fallback ⟨fun _ => 404, fun _ => 0⟩ ⟨some "K", []⟩ "K"
    rfl rfl (by decide) (by decide)

/-- Claim C4: an item none of whose attachments has an annotation gets
no Markdown file, only a skip notice; a file is written only when some
attachment has at least one annotation. -/
theorem C4_skip_unannotated :
    ∀ i : ExpItem,
      ((∀ a ∈ query_attachments i, query_annotations a = []) →
        exportItemAct i = .skipNotice i.title)
      ∧ (∀ n, exportItemAct i = .writeFile n →
          ∃ a ∈ query_attachments i, query_annotations a ≠ []) := by
  intro i
  have key : (∀ a ∈ query_attachments i, query_annotations a = []) →
      annotationsByAttachment i = [] := by
    intro h
    unfold annotationsByAttachment
    rw [List.filterMap_eq_nil_iff]
    intro a ha
    simp [h a ha]
  constructor
  · intro h
    simp [exportItemAct, key h]
  · intro n hn
    by_contra hc
    push_neg at hc
    have hnil := key hc
    simp [exportItemAct, hnil] at hn

/-- Witness for Claim C4 at an item whose only attachment has a
non-annotation child. -/
theorem C4_skip_unannotated_witness :
    exportItemAct ⟨"I1", "T", [⟨"A1", "attachment", [⟨"note"⟩]⟩]⟩
      = ExportAct.skipNotice "T" :=
  (C4_skip_unannotated ⟨"I1", "T", [⟨"A1", "attachment", [⟨"note"⟩]⟩]⟩).1 (by decide)

/-- Claim C5: if `ZOTERO_API_KEY` or `ZOTERO_LIBRARY_ID` is unset, the
backup command prints a message and exits with status 2, and its trace
contains no network request of any kind. -/
theorem C5_missing_env :
    ∀ (env : String → Option String) (cfg : BackupCfg) (w : BkWorld),
      env "ZOTERO_API_KEY" = none ∨ env "ZOTERO_LIBRARY_ID" = none →
      backupEntryTrace env cfg w = [Ev.printMsg, Ev.exitWith 2]
      ∧ (backupEntryTrace env cfg w).countP isNetworkReq = 0 := by
  intro env cfg w h
  have hcond : (pyFalsy (env "ZOTERO_API_KEY")
      || pyFalsy (env "ZOTERO_LIBRARY_ID")) = true := by
    rcases h with h | h <;> simp [h, pyFalsy]
  have htr : backupEntryTrace env cfg w = [Ev.printMsg, Ev.exitWith 2] := by
    simp [backupEntryTrace, hcond]
  exact ⟨htr, by rw [htr]; decide⟩

/-- Witness for Claim C5 with the entirely empty environment. -/
theorem C5_missing_env_witness :
    backupEntryTrace (fun _ => none) ⟨true, true, 100⟩
        ⟨[], fun _ => false, fun _ => []⟩ = [Ev.printMsg, Ev.exitWith 2]
    ∧ (backupEntryTrace (fun _ => none) ⟨true, true, 100⟩
        ⟨[], fun _ => false, fun _ => []⟩).countP isNetworkReq = 0 :=
  C5_missing_env (fun _ => none) ⟨true, true, 100⟩
    ⟨[], fun _ => false, fun _ => []⟩ (Or.inl rfl)

/-- Claim C6, counterexample: `ZoteroClient.query_items` only calls
`raise_for_status`, so a 429 fails with exactly the same error kind as
any other HTTP failure — this client request does not distinguish rate
limiting from other HTTP errors. -/
theorem C6_counterexample :
    query_items 429 ([] : List Nat) = query_items 500 ([] : List Nat)
    ∧ query_items 429 ([] : List Nat) = .error .httpError := by
  exact ⟨rfl, rfl⟩

/-- Claim C6, amended: for every request through `ZoteroBackup._get`,
a non-success status fails the call with an error kind distinguishing
rate limiting (429, a `RuntimeError`) from other HTTP failures
(`requests.HTTPError`); both kinds propagate and no retry is
performed.  `ZoteroClient.query_items` also propagates every HTTP
failure without retry, but raises the same single kind for 429 as for
any other failing status. -/
theorem C6_error_kinds :
    ∀ s : Nat,
      (s = 429 → zotero_get s = .error .rateLimited)
      ∧ (400 ≤ s → s ≠ 429 → zotero_get s = .error .httpError)
      ∧ BackupErr.rateLimited ≠ BackupErr.httpError
      ∧ (∀ body : List Nat, 400 ≤ s → query_items s body = .error .httpError)
      ∧ (∀ body : List Nat, s < 400 → query_items s body = .ok body) := by
  intro s
  refine ⟨fun h => by simp [zotero_get, h],
    fun h4 h9 => by simp [zotero_get, h9, h4],
    by decide,
    fun body h4 => by simp [query_items, h4],
    fun body hlt => by simp [query_items, Nat.not_le.mpr hlt]⟩

/-- Witness for Claim C6 at statuses 429 and 500. -/
theorem C6_error_kinds_witness :
    zotero_get 429 = .error .rateLimited
    ∧ zotero_get 500 = .error .httpError
    ∧ query_items 500 ([] : List Nat) = .error .httpError :=
  ⟨(C6_error_kinds 429).1 rfl,
   (C6_error_kinds 500).2.1 (by decide) (by decide),
   (C6_error_kinds 500).2.2.2.1 [] (by decide)⟩

/-- Claim C9: `_maybe_init_and_commit` initialises a repository in the
output directory only when it is not one already, writes the ignore
file only when it is absent (and always does so when the directory is
or becomes a repository), stages all changes, commits, and a failing
`git add`/`git commit` is caught and reported — the trace always ends
normally, never with a raised exception. -/
theorem C9_git_commit :
    ∀ a b c d e : Bool,
      (GitEv.initRepo ∈ maybe_init_and_commit ⟨a, b, c, d, e⟩ ↔ a = false)
      ∧ (GitEv.writeIgnore ∈ maybe_init_and_commit ⟨a, b, c, d, e⟩ → b = false)
      ∧ ((a = true ∨ c = true) →
          (GitEv.writeIgnore ∈ maybe_init_and_commit ⟨a, b, c, d, e⟩ ↔ b = false))
      ∧ ((a = true ∨ c = true) → GitEv.addAll ∈ maybe_init_and_commit ⟨a, b, c, d, e⟩)
      ∧ ((a = true ∨ c = true) → (d = false ∨ e = false) →
          GitEv.reportCommitFail ∈ maybe_init_and_commit ⟨a, b, c, d, e⟩)
      ∧ ((a = true ∨ c = true) → d = true → e = true →
          GitEv.committed ∈ maybe_init_and_commit ⟨a, b, c, d, e⟩
          ∧ GitEv.commitMsg ∈ maybe_init_and_commit ⟨a, b, c, d, e⟩) := by
  intro a b c d e
  cases a <;> cases b <;> cases c <;> cases d <;> cases e <;>
    exact ⟨by decide, by decide, by decide, by decide, by decide, by decide⟩

/-- Witness for Claim C9: in a fresh directory with a succeeding init
and add but a failing commit, the repository is initialised and the
commit failure is reported. -/
theorem C9_git_commit_witness :
    GitEv.initRepo ∈ maybe_init_and_commit ⟨false, false, true, true, false⟩
    ∧ GitEv.reportCommitFail ∈ maybe_init_and_commit ⟨false, false, true, true, false⟩ :=
  ⟨(C9_git_commit false false true true false).1.mpr rfl,
   (C9_git_commit false false true true false).2.2.2.2.1 (Or.inr rfl) (Or.inr rfl)⟩
